import Mathlib

/-
Verification development for the imfusion repository excerpt:
  src/imfusion/build/indexers/tophat.py   (TophatIndexer, TophatReference)
  src/imfusion/insertions/aligners/base.py (aligner registry, Aligner base)
plus models, faithful to the repository specification, of the parts the
claims mention whose code is not in the excerpt (TophatAligner,
tophat2_align, check_dependencies, the fusion-report fixture).

Paths are embedded as lists of components; the filesystem / subprocess
world is threaded explicitly as a state value, and exceptions are
`Except` results, matching the Python control flow (try/finally,
propagating errors).
-/

namespace IMFusion

/-- A filesystem path (`pathlib.Path`), as its list of components.
Python's `p / 'name'` is `p ++ ["name"]` here. -/
abbrev Path := List String

/-- `str(path)`: the components joined by `/`. -/
def pathStr (p : Path) : String := String.intercalate "/" p

/-- A subprocess invocation as passed to `imfusion.util.shell.run_command`:
the argument list, and the log file stdout is redirected to (if any). -/
structure Cmd where
  args : List String
  stdout : Option String
deriving Repr, DecidableEq

/-- The observable world state threaded through the embedded code: the
temporary directories currently existing on disk, and the trace of external
commands run so far (in order). -/
structure World where
  tmpDirs : List String
  trace : List Cmd
deriving Repr, DecidableEq

/-- `shell.run_command`: records the invocation in the trace; when the
external tool exits non-zero (the oracle `fails`), raises — returns
`.error` — as `CalledProcessError` does in Python. -/
def run_command (fails : Bool) (cmd : Cmd) (w : World) :
    Except String Unit × World :=
  let w1 : World := { w with trace := w.trace ++ [cmd] }
  if fails then
    (Except.error ("non-zero exit status for " ++ String.intercalate " " cmd.args), w1)
  else
    (Except.ok (), w1)

/-- `tempfile.mkdtemp`: creates a fresh scratch directory named `name`. -/
def mkdtemp (name : String) (w : World) : World :=
  { w with tmpDirs := w.tmpDirs ++ [name] }

/-- `shutil.rmtree`: removes the directory named `name`. -/
def rmtree (name : String) (w : World) : World :=
  { w with tmpDirs := w.tmpDirs.erase name }

/-- `TophatReference` (tophat.py). The field `base` is the `_reference`
base directory; `fastaPath`/`gtfPath` stand for the source fasta/gtf paths
that the base `Reference` class (not part of the excerpt) exposes. -/
structure TophatReference where
  base : Path
  fastaPath : Path
  gtfPath : Path
deriving Repr, DecidableEq

/-- `TophatReference.index_path` (tophat.py): `self._reference / 'reference'`. -/
def TophatReference.index_path (r : TophatReference) : Path :=
  r.base ++ ["reference"]

/-- `TophatReference.transcriptome_path` (tophat.py):
`self._reference / 'transcriptome'`. -/
def TophatReference.transcriptome_path (r : TophatReference) : Path :=
  r.base ++ ["transcriptome"]

/-- Modelled from the spec: `Reference.base_path` of the base `Reference`
class (imfusion/build/indexers/base.py, not in the excerpt) — the base
directory of the on-disk reference layout. -/
def TophatReference.base_path (r : TophatReference) : Path := r.base

/-- `TophatIndexer.dependencies` (tophat.py): the external binaries the
indexer requires. -/
def TophatIndexer.dependencies : List String := ["bowtie-build", "tophat2"]

/-- `TophatIndexer._build_bowtie_index` (tophat.py): runs
`bowtie-build <fasta> <out_base>`, stdout to the log file when given. -/
def TophatIndexer.build_bowtie_index (fails : Bool)
    (reference_path output_base_path : Path) (log_path : Option Path)
    (w : World) : Except String Unit × World :=
  run_command fails
    { args := ["bowtie-build", pathStr reference_path, pathStr output_base_path],
      stdout := log_path.map pathStr } w

/-- `TophatIndexer._build_transcriptome_index` (tophat.py): makes a
temporary scratch directory, runs
`tophat2 --GTF <gtf> --transcriptome-index=<out> --bowtie1 --output-dir <tmp> <index>`
inside a try block, and removes the scratch directory in the finally
block, re-raising any error from the command. `tmp_name` is the directory
name `tempfile.mkdtemp` returns. -/
def TophatIndexer.build_transcriptome_index (fails : Bool) (tmp_name : String)
    (index_path gtf_path output_base_path : Path) (log_path : Option Path)
    (w : World) : Except String Unit × World :=
  let w1 := mkdtemp tmp_name w
  let cmd : Cmd :=
    { args := ["tophat2", "--GTF", pathStr gtf_path,
               "--transcriptome-index=" ++ pathStr output_base_path,
               "--bowtie1", "--output-dir", tmp_name, pathStr index_path],
      stdout := log_path.map pathStr }
  let res := run_command fails cmd w1
  (res.1, rmtree tmp_name res.2)

/-- `TophatIndexer._build_indices` (tophat.py): builds the bowtie index
with log `base_path / 'bowtie.log'`, then the transcriptome index with log
`base_path / 'transcriptome.log'`. An exception from the first step
propagates and the second step is not run. -/
def TophatIndexer.build_indices (bowtie_fails tophat_fails : Bool)
    (tmp_name : String) (ref : TophatReference) (w : World) :
    Except String Unit × World :=
  let res1 := TophatIndexer.build_bowtie_index bowtie_fails ref.fastaPath
    ref.index_path (some (ref.base_path ++ ["bowtie.log"])) w
  match res1.1 with
  | Except.error e => (Except.error e, res1.2)
  | Except.ok _ =>
    TophatIndexer.build_transcriptome_index tophat_fails tmp_name
      ref.index_path ref.gtfPath ref.transcriptome_path
      (some (ref.base_path ++ ["transcriptome.log"])) res1.2

/-- C9: for every `TophatReference` with base directory `B`, `index_path`
is `B/'reference'` and `transcriptome_path` is `B/'transcriptome'`; both
are pure functions of `B` alone (independent of the other fields and of
any filesystem state, which they do not take). -/
theorem c9_reference_paths (b fasta gtf fasta2 gtf2 : Path) :
    TophatReference.index_path ⟨b, fasta, gtf⟩ = b ++ ["reference"] ∧
    TophatReference.transcriptome_path ⟨b, fasta, gtf⟩ = b ++ ["transcriptome"] ∧
    TophatReference.index_path ⟨b, fasta, gtf⟩ =
      TophatReference.index_path ⟨b, fasta2, gtf2⟩ ∧
    TophatReference.transcriptome_path ⟨b, fasta, gtf⟩ =
      TophatReference.transcriptome_path ⟨b, fasta2, gtf2⟩ := by
  refine ⟨rfl, rfl, rfl, rfl⟩

/-- C5: the exact command lines of the two index-building subprocess
invocations, with all path arguments rendered through `str`:
`bowtie-build <fasta> <out_base>` and
`tophat2 --GTF <gtf> --transcriptome-index=<out> --bowtie1 --output-dir <tmp> <index>`. -/
theorem c5_index_command_lines (bf tf : Bool) (tmp : String)
    (fasta out idx gtf tout : Path) (log1 log2 : Option Path) (w : World) :
    (TophatIndexer.build_bowtie_index bf fasta out log1 w).2.trace =
      w.trace ++
        [{ args := ["bowtie-build", pathStr fasta, pathStr out],
           stdout := log1.map pathStr }] ∧
    (TophatIndexer.build_transcriptome_index tf tmp idx gtf tout log2 w).2.trace =
      w.trace ++
        [{ args := ["tophat2", "--GTF", pathStr gtf,
                    "--transcriptome-index=" ++ pathStr tout,
                    "--bowtie1", "--output-dir", tmp, pathStr idx],
           stdout := log2.map pathStr }] := by
  constructor
  · cases bf <;> rfl
  · cases tf <;> rfl

/-- C2: `_build_transcriptome_index` always removes the temporary scratch
directory it created before returning — both when the external tophat2
command succeeds and when it raises — and in the failure case the error
still propagates to the caller. -/
theorem c2_tmpdir_cleanup (fails : Bool) (tmp : String)
    (idx gtf out : Path) (log : Option Path) (w : World)
    (h : tmp ∉ w.tmpDirs) :
    tmp ∉ (TophatIndexer.build_transcriptome_index fails tmp idx gtf out log w).2.tmpDirs ∧
    (fails = true →
      ∃ e, (TophatIndexer.build_transcriptome_index fails tmp idx gtf out log w).1 =
        Except.error e) ∧
    (fails = false →
      (TophatIndexer.build_transcriptome_index fails tmp idx gtf out log w).1 =
        Except.ok ()) := by
  refine ⟨?_, ?_, ?_⟩
  · cases fails <;>
      simp [TophatIndexer.build_transcriptome_index, run_command, mkdtemp, rmtree,
        List.erase_append_right _ h, h]
  · intro hf
    subst hf
    exact ⟨_, rfl⟩
  · intro hf
    subst hf
    rfl

/-- C2 witness: at a concrete input with a fresh scratch directory, cleanup
and error propagation hold for the failing run. -/
theorem c2_tmpdir_cleanup_witness :
    "tmpXYZ" ∉ (World.mk [] []).tmpDirs ∧
    ("tmpXYZ" ∉ (TophatIndexer.build_transcriptome_index true "tmpXYZ" ["idx"]
        ["ref.gtf"] ["out"] none (World.mk [] [])).2.tmpDirs ∧
      (true = true →
        ∃ e, (TophatIndexer.build_transcriptome_index true "tmpXYZ" ["idx"]
          ["ref.gtf"] ["out"] none (World.mk [] [])).1 = Except.error e) ∧
      (true = false →
        (TophatIndexer.build_transcriptome_index true "tmpXYZ" ["idx"]
          ["ref.gtf"] ["out"] none (World.mk [] [])).1 = Except.ok ())) :=
  ⟨by decide,
   c2_tmpdir_cleanup true "tmpXYZ" ["idx"] ["ref.gtf"] ["out"] none
     (World.mk [] []) (by decide)⟩

/-- C6: `_build_indices` performs exactly two external build steps in
order — bowtie index build first, transcriptome index build second — with
stdout of the first written to `bowtie.log` and of the second to
`transcriptome.log`, both directly under the reference base path. -/
theorem c6_build_indices_steps (tmp : String) (ref : TophatReference)
    (w : World) :
    (TophatIndexer.build_indices false false tmp ref w).2.trace =
      w.trace ++
        [{ args := ["bowtie-build", pathStr ref.fastaPath, pathStr ref.index_path],
           stdout := some (pathStr (ref.base_path ++ ["bowtie.log"])) },
         { args := ["tophat2", "--GTF", pathStr ref.gtfPath,
                    "--transcriptome-index=" ++ pathStr ref.transcriptome_path,
                    "--bowtie1", "--output-dir", tmp, pathStr ref.index_path],
           stdout := some (pathStr (ref.base_path ++ ["transcriptome.log"])) }] := by
  simp [TophatIndexer.build_indices, TophatIndexer.build_bowtie_index,
    TophatIndexer.build_transcriptome_index, run_command, mkdtemp, rmtree]

/-- A Python `dict` with string keys, as an association list in insertion
order: assignment `d[k] = v` updates the existing entry in place, or
appends a new one. -/
abbrev Dict (α : Type) := List (String × α)

/-- Python dict assignment `d[k] = v`. -/
def dictSet {α : Type} : Dict α → String → α → Dict α
  | [], k, v => [(k, v)]
  | (k0, v0) :: rest, k, v =>
    if k0 = k then (k, v) :: rest else (k0, v0) :: dictSet rest k v

/-- Python dict lookup `d.get(k)`. -/
def dictGet? {α : Type} (d : Dict α) (k : String) : Option α :=
  (d.find? (fun kv => kv.1 == k)).map Prod.snd

/-- The interpreter state used to embed the module-level aligner registry
(base.py): the `_aligner_registry` dict itself, and a heap of the separate
dict objects handed out by `get_aligners` (each `dict(_aligner_registry)`
call allocates a fresh copy; its heap index is the object reference). -/
structure PyState (α : Type) where
  registry : Dict α
  heap : List (Dict α)
deriving Repr, DecidableEq

/-- `register_aligner` (base.py): `_aligner_registry[name] = aligner`. -/
def register_aligner {α : Type} (name : String) (aligner : α)
    (s : PyState α) : PyState α :=
  { s with registry := dictSet s.registry name aligner }

/-- `get_aligners` (base.py): `return dict(_aligner_registry)` — allocates
a fresh dict holding a copy of the registry and returns a reference to it. -/
def get_aligners {α : Type} (s : PyState α) : Nat × PyState α :=
  (s.heap.length, { s with heap := s.heap ++ [s.registry] })

/-- Mutation `d[k] = v` performed by the caller on a dict object it holds a
reference to (heap index `r`). -/
def mutate_dict {α : Type} (r : Nat) (k : String) (v : α)
    (s : PyState α) : PyState α :=
  { s with heap := s.heap.set r (dictSet (s.heap.getD r []) k v) }

/-- The dict object at heap index `r`. -/
def heap_dict {α : Type} (s : PyState α) (r : Nat) : Dict α :=
  s.heap.getD r []

theorem dictGet_dictSet {α : Type} (d : Dict α) (k : String) (v : α) :
    dictGet? (dictSet d k v) k = some v := by
  induction d with
  | nil => simp [dictSet, dictGet?]
  | cons kv rest ih =>
    by_cases h : kv.1 = k
    · cases kv
      simp_all [dictSet, dictGet?]
    · cases kv
      simp_all [dictSet, dictGet?, List.find?]

theorem getD_append_length {α : Type} (l : List α) (x d : α) :
    (l ++ [x]).getD l.length d = x := by
  induction l with
  | nil => rfl
  | cons a t ih => exact ih

/-- C10: registry round trip and isolation. After `register_aligner name a`,
the dict returned by `get_aligners` maps `name` to `a`; registering the
same name again overwrites the earlier entry; and since `get_aligners`
returns a fresh copy, mutating the returned dict leaves the registry and
the result of a subsequent `get_aligners` unchanged. -/
theorem c10_registry (α : Type) (name k : String) (a b v : α)
    (s : PyState α) :
    dictGet? (heap_dict (get_aligners (register_aligner name a s)).2
      (get_aligners (register_aligner name a s)).1) name = some a ∧
    dictGet? (register_aligner name a (register_aligner name b s)).registry
      name = some a ∧
    (mutate_dict (get_aligners (register_aligner name a s)).1 k v
        (get_aligners (register_aligner name a s)).2).registry =
      (register_aligner name a s).registry ∧
    heap_dict
      (get_aligners (mutate_dict (get_aligners (register_aligner name a s)).1
        k v (get_aligners (register_aligner name a s)).2)).2
      (get_aligners (mutate_dict (get_aligners (register_aligner name a s)).1
        k v (get_aligners (register_aligner name a s)).2)).1 =
      (register_aligner name a s).registry := by
  refine ⟨?_, ?_, rfl, ?_⟩
  · show dictGet? (((register_aligner name a s).heap ++
      [(register_aligner name a s).registry]).getD
        (register_aligner name a s).heap.length []) name = some a
    rw [getD_append_length]
    exact dictGet_dictSet s.registry name a
  · exact dictGet_dictSet (dictSet s.registry name b) name a
  · exact getD_append_length _ _ _

/-- `TophatAligner` (imfusion/insertions/aligners/tophat.py, not in the
excerpt). Modelled from the spec: the aligner's configuration — reference,
assembly toggle and args, minimum fusion flank length, thread count, extra
raw arguments, feature/orientation filter toggles, gene blacklist. -/
structure TophatAligner where
  reference : TophatReference
  assemble : Bool
  assemble_args : Dict (List String)
  min_flank : Nat
  threads : Nat
  extra_args : Dict (List String)
  filter_features : Bool
  filter_orientation : Bool
  filter_blacklist : Option (List String)
deriving Repr, DecidableEq

/-- Modelled from the spec: `TophatAligner.__init__` defaults (not in the
excerpt) — assembly disabled with no args, minimum flank length 12, one
thread, no extra arguments, both filters enabled, no gene blacklist. -/
def TophatAligner.init (r : TophatReference) : TophatAligner :=
  ⟨r, false, [], 12, 1, [], true, true, none⟩

/-- Modelled from the spec: `TophatAligner.dependencies` (not in the
excerpt) — tophat2 and bowtie always; enabling assembly adds stringtie. -/
def TophatAligner.dependencies (a : TophatAligner) : List String :=
  ["tophat2", "bowtie"] ++ (if a.assemble then ["stringtie"] else [])

/-- C3: dependency declarations match the configured feature set exactly:
`TophatIndexer.dependencies` is `['bowtie-build', 'tophat2']`; a
`TophatAligner` without assembly declares exactly `{tophat2, bowtie}`, and
with `assemble=True` exactly the one extra binary stringtie is added. -/
theorem c3_dependencies (r : TophatReference) :
    TophatIndexer.dependencies = ["bowtie-build", "tophat2"] ∧
    (TophatAligner.init r).dependencies.toFinset =
      ({"tophat2", "bowtie"} : Finset String) ∧
    ({ TophatAligner.init r with assemble := true } :
        TophatAligner).dependencies.toFinset =
      ({"tophat2", "bowtie", "stringtie"} : Finset String) := by
  refine ⟨rfl, ?_, ?_⟩ <;> simp [TophatAligner.init, TophatAligner.dependencies]

/-- `check_dependencies` (imfusion/external/util.py, not in the excerpt).
Modelled from the spec: checks each required binary for presence in
`$PATH` (here, the list of binaries on the path) and raises a `ValueError`
naming the missing binaries; the error value carries their names. -/
def check_dependencies (path_binaries : List String)
    (dependencies : List String) : Except (List String) Unit :=
  match dependencies.filter (fun d => !path_binaries.contains d) with
  | [] => Except.ok ()
  | missing => Except.error missing

/-- `Aligner.check_dependencies` (base.py): calls `check_dependencies` on
the instance's declared dependencies. -/
def Aligner.check_dependencies (a : TophatAligner)
    (path_binaries : List String) : Except (List String) Unit :=
  IMFusion.check_dependencies path_binaries a.dependencies

theorem check_dependencies_ok_iff (path deps : List String) :
    check_dependencies path deps = Except.ok () ↔
      ∀ d ∈ deps, d ∈ path := by
  unfold check_dependencies
  rcases hf : deps.filter (fun d => !path.contains d) with _ | ⟨m, rest⟩
  · simp only [List.filter_eq_nil_iff] at hf
    simpa using fun d hd => by simpa using hf d hd
  · constructor
    · intro h
      exact absurd h (by simp)
    · intro h
      have hm : m ∈ deps.filter (fun d => !path.contains d) := by
        rw [hf]; exact List.mem_cons_self m rest
      rw [List.mem_filter] at hm
      have := h m hm.1
      simp_all

theorem check_dependencies_error_iff (path deps : List String) :
    (∃ missing, check_dependencies path deps = Except.error missing) ↔
      ∃ d ∈ deps, d ∉ path := by
  unfold check_dependencies
  rcases hf : deps.filter (fun d => !path.contains d) with _ | ⟨m, rest⟩
  · constructor
    · rintro ⟨missing, hm⟩
      exact absurd hm (by simp)
    · rintro ⟨d, hd, hdp⟩
      have hdm : d ∈ deps.filter (fun x => !path.contains x) := by
        rw [List.mem_filter]
        exact ⟨hd, by simpa using hdp⟩
      rw [hf] at hdm
      simp at hdm
  · constructor
    · rintro -
      have hm : m ∈ deps.filter (fun d => !path.contains d) := by
        rw [hf]
        exact List.mem_cons_self m rest
      rw [List.mem_filter] at hm
      exact ⟨m, hm.1, by simpa using hm.2⟩
    · rintro -
      exact ⟨m :: rest, rfl⟩

theorem check_dependencies_error_names (path deps missing : List String)
    (hm : check_dependencies path deps = Except.error missing) :
    missing ≠ [] ∧ ∀ d ∈ missing, d ∈ deps ∧ d ∉ path := by
  unfold check_dependencies at hm
  rcases hf : deps.filter (fun d => !path.contains d) with _ | ⟨m, rest⟩
  · rw [hf] at hm
    exact Except.noConfusion hm
  · rw [hf] at hm
    injection hm with hm
    subst hm
    refine ⟨by simp, fun d hd => ?_⟩
    have hdm : d ∈ deps.filter (fun x => !path.contains x) := by
      rw [hf]
      exact hd
    rw [List.mem_filter] at hdm
    exact ⟨hdm.1, by simpa using hdm.2⟩

/-- C7: `Aligner.check_dependencies` raises a `ValueError` naming a missing
binary if and only if at least one declared dependency is absent from
`$PATH`; it returns normally exactly when all declared dependencies are
present, and every binary the error names is a declared dependency that is
genuinely missing. -/
theorem c7_check_dependencies (a : TophatAligner) (path : List String) :
    (Aligner.check_dependencies a path = Except.ok () ↔
      ∀ d ∈ a.dependencies, d ∈ path) ∧
    ((∃ missing, Aligner.check_dependencies a path = Except.error missing) ↔
      ∃ d ∈ a.dependencies, d ∉ path) ∧
    (∀ missing, Aligner.check_dependencies a path = Except.error missing →
      missing ≠ [] ∧ ∀ d ∈ missing, d ∈ a.dependencies ∧ d ∉ path) := by
  simp only [Aligner.check_dependencies]
  exact ⟨check_dependencies_ok_iff path a.dependencies,
    check_dependencies_error_iff path a.dependencies,
    fun missing hm => check_dependencies_error_names path a.dependencies missing hm⟩

/-- C7 witness: for a concrete aligner whose path is missing bowtie, the
characterization holds. -/
theorem c7_check_dependencies_witness :
    (Aligner.check_dependencies (TophatAligner.init ⟨["r"], ["f"], ["g"]⟩)
        ["tophat2"] = Except.ok () ↔
      ∀ d ∈ (TophatAligner.init ⟨["r"], ["f"], ["g"]⟩).dependencies,
        d ∈ ["tophat2"]) ∧
    ((∃ missing, Aligner.check_dependencies
        (TophatAligner.init ⟨["r"], ["f"], ["g"]⟩) ["tophat2"] =
          Except.error missing) ↔
      ∃ d ∈ (TophatAligner.init ⟨["r"], ["f"], ["g"]⟩).dependencies,
        d ∉ ["tophat2"]) ∧
    (∀ missing, Aligner.check_dependencies
        (TophatAligner.init ⟨["r"], ["f"], ["g"]⟩) ["tophat2"] =
          Except.error missing →
      missing ≠ [] ∧ ∀ d ∈ missing,
        d ∈ (TophatAligner.init ⟨["r"], ["f"], ["g"]⟩).dependencies ∧
          d ∉ ["tophat2"]) :=
  c7_check_dependencies (TophatAligner.init ⟨["r"], ["f"], ["g"]⟩) ["tophat2"]

/-- A Python value appearing in an extra-argument tuple: a string, an
integer, or a path (all are passed through `str` when building the
command line). -/
inductive PyVal where
  | str (s : String)
  | int (n : Int)
  | path (p : Path)
deriving Repr, DecidableEq

/-- `str(v)` for an extra-argument value. -/
def PyVal.render : PyVal → String
  | PyVal.str s => s
  | PyVal.int n => toString n
  | PyVal.path p => pathStr p

/-- `tophat2_align` (imfusion/insertions/aligners/tophat.py, not in the
excerpt). Modelled from the spec: builds the tophat2 command line from the
fixed arguments (`tophat2 --output-dir <out>`, the index path and the first
read path) merged with every caller-supplied extra flag followed by its
values, every value passed through `str`; the second read path is appended
only in paired-end mode, so in single-end mode (`fastq2_path = none`) the
first read path is the final argument. -/
def tophat2_align (fastq_path : Path) (fastq2_path : Option Path)
    (index_path output_dir : Path)
    (extra_args : List (String × List PyVal)) : List String :=
  ["tophat2", "--output-dir", pathStr output_dir] ++
    extra_args.foldr (fun kv acc => (kv.1 :: kv.2.map PyVal.render) ++ acc) [] ++
    [pathStr index_path, pathStr fastq_path] ++
    (match fastq2_path with
     | some p => [pathStr p]
     | none => [])

theorem foldr_flatten_mem {α : Type} (f : α → List String)
    (l : List α) (x : α) (hx : x ∈ l) :
    ∃ pre post, l.foldr (fun kv acc => f kv ++ acc) [] =
      pre ++ f x ++ post := by
  induction l with
  | nil => cases hx
  | cons a t ih =>
    rcases List.mem_cons.1 hx with h | h
    · subst h
      exact ⟨[], t.foldr (fun kv acc => f kv ++ acc) [], by simp⟩
    · rcases ih h with ⟨pre, post, hp⟩
      exact ⟨f a ++ pre, post, by simp [hp]⟩

/-- C4: for every call to `tophat2_align`, each caller-supplied extra flag
appears in the constructed command line immediately followed by its
stringified values (integers are rendered in decimal, e.g. `20` as
`"20"`), the fixed arguments are all present, and in single-end mode the
first read path is the final argument. -/
theorem c4_tophat2_align (fq : Path) (fq2 : Option Path) (idx out : Path)
    (extra : List (String × List PyVal)) :
    (∀ k vs, (k, vs) ∈ extra →
      ∃ pre post, tophat2_align fq fq2 idx out extra =
        pre ++ (k :: vs.map PyVal.render) ++ post) ∧
    PyVal.render (PyVal.int 20) = "20" ∧
    "tophat2" ∈ tophat2_align fq fq2 idx out extra ∧
    "--output-dir" ∈ tophat2_align fq fq2 idx out extra ∧
    pathStr out ∈ tophat2_align fq fq2 idx out extra ∧
    pathStr idx ∈ tophat2_align fq fq2 idx out extra ∧
    pathStr fq ∈ tophat2_align fq fq2 idx out extra ∧
    (fq2 = none →
      (tophat2_align fq fq2 idx out extra).getLast? = some (pathStr fq)) := by
  refine ⟨?_, rfl, ?_, ?_, ?_, ?_, ?_, ?_⟩
  · intro k vs h
    rcases foldr_flatten_mem (fun kv => kv.1 :: kv.2.map PyVal.render)
      extra (k, vs) h with ⟨pre, post, hp⟩
    simp only at hp
    refine ⟨["tophat2", "--output-dir", pathStr out] ++ pre,
      post ++ [pathStr idx, pathStr fq] ++
        (match fq2 with | some p => [pathStr p] | none => []), ?_⟩
    simp only [tophat2_align]
    rw [hp]
    simp
  · simp [tophat2_align]
  · simp [tophat2_align]
  · simp [tophat2_align]
  · simp [tophat2_align]
  · simp [tophat2_align]
  · intro h2
    subst h2
    have hsplit : tophat2_align fq none idx out extra =
        (["tophat2", "--output-dir", pathStr out] ++
          extra.foldr (fun kv acc => (kv.1 :: kv.2.map PyVal.render) ++ acc) [] ++
          [pathStr idx]) ++ [pathStr fq] := by
      simp [tophat2_align]
    rw [hsplit, List.getLast?_concat]

/-- C4 witness: concrete single-end invocation carrying the extra flag
`--num-threads 20`. -/
theorem c4_tophat2_align_witness :
    (∀ k vs, (k, vs) ∈ [("--num-threads", [PyVal.int 20])] →
      ∃ pre post, tophat2_align ["a.fastq.gz"] none ["idx"] ["out"]
        [("--num-threads", [PyVal.int 20])] =
        pre ++ (k :: vs.map PyVal.render) ++ post) ∧
    PyVal.render (PyVal.int 20) = "20" ∧
    "tophat2" ∈ tophat2_align ["a.fastq.gz"] none ["idx"] ["out"]
      [("--num-threads", [PyVal.int 20])] ∧
    "--output-dir" ∈ tophat2_align ["a.fastq.gz"] none ["idx"] ["out"]
      [("--num-threads", [PyVal.int 20])] ∧
    pathStr ["out"] ∈ tophat2_align ["a.fastq.gz"] none ["idx"] ["out"]
      [("--num-threads", [PyVal.int 20])] ∧
    pathStr ["idx"] ∈ tophat2_align ["a.fastq.gz"] none ["idx"] ["out"]
      [("--num-threads", [PyVal.int 20])] ∧
    pathStr ["a.fastq.gz"] ∈ tophat2_align ["a.fastq.gz"] none ["idx"] ["out"]
      [("--num-threads", [PyVal.int 20])] ∧
    (none = (none : Option Path) →
      (tophat2_align ["a.fastq.gz"] none ["idx"] ["out"]
        [("--num-threads", [PyVal.int 20])]).getLast? =
          some (pathStr ["a.fastq.gz"])) :=
  c4_tophat2_align ["a.fastq.gz"] none ["idx"] ["out"]
    [("--num-threads", [PyVal.int 20])]

/-- The command-line flag map handed to `parse_args`: each given flag with
its raw string value. -/
abbrev ArgMap := Dict String

/-- The argparse namespace produced by `Aligner.configure_args` (base.py):
`--fastq`, `--reference`, `--output_dir` (all `pathlib.Path`), and the
optional `--fastq2`. -/
structure BaseArgs where
  fastq : Path
  fastq2 : Option Path
  reference : Path
  output_dir : Path
deriving Repr, DecidableEq

/-- `pathlib.Path(s)`: split a raw string into path components. -/
def strToPath (s : String) : Path := s.splitOn "/"

/-- `Aligner.configure_args` (base.py) combined with argparse's
`parse_args`: `--fastq`, `--reference` and `--output_dir` are declared
`required=True`, so parsing fails when any is absent; `--fastq2` has
`default=None`. Values are converted with `type=pathlib.Path`. -/
def parse_base_args (m : ArgMap) : Except String BaseArgs :=
  match dictGet? m "--fastq" with
  | none => Except.error "the following arguments are required: --fastq"
  | some f =>
    match dictGet? m "--reference" with
    | none => Except.error "the following arguments are required: --reference"
    | some r =>
      match dictGet? m "--output_dir" with
      | none => Except.error "the following arguments are required: --output_dir"
      | some o =>
        Except.ok
          { fastq := strToPath f,
            fastq2 := (dictGet? m "--fastq2").map strToPath,
            reference := strToPath r,
            output_dir := strToPath o }

/-- Modelled from the spec: `TophatAligner.from_args` / `_parse_args` (not
in the excerpt) — from a namespace holding only the basic arguments it
constructs the aligner with all tuning parameters at their defaults; the
reference is built from the `--reference` base directory (the source
fasta/gtf paths of the base `Reference` layout sit under it). -/
def TophatAligner.from_args (args : BaseArgs) : TophatAligner :=
  TophatAligner.init
    ⟨args.reference, args.reference ++ ["reference.fa"],
     args.reference ++ ["reference.gtf"]⟩

/-- C8: `--fastq`, `--reference`, `--output_dir` are required (parsing
fails when any one is absent) and `--fastq2` defaults to `None`; a
`TophatAligner` built from minimal arguments has one thread, minimum flank
length 12, both filters enabled, empty extra arguments, assembly disabled
(with empty assembly args), and no gene blacklist. -/
theorem c8_args_defaults (f r o : String) (m1 m2 m3 : ArgMap)
    (h1 : dictGet? m1 "--fastq" = none)
    (h2 : dictGet? m2 "--reference" = none)
    (h3 : dictGet? m3 "--output_dir" = none) :
    parse_base_args [("--fastq", f), ("--reference", r), ("--output_dir", o)] =
      Except.ok ⟨strToPath f, none, strToPath r, strToPath o⟩ ∧
    (∃ e, parse_base_args m1 = Except.error e) ∧
    (∃ e, parse_base_args m2 = Except.error e) ∧
    (∃ e, parse_base_args m3 = Except.error e) ∧
    (TophatAligner.from_args
      ⟨strToPath f, none, strToPath r, strToPath o⟩).threads = 1 ∧
    (TophatAligner.from_args
      ⟨strToPath f, none, strToPath r, strToPath o⟩).min_flank = 12 ∧
    (TophatAligner.from_args
      ⟨strToPath f, none, strToPath r, strToPath o⟩).filter_features = true ∧
    (TophatAligner.from_args
      ⟨strToPath f, none, strToPath r, strToPath o⟩).filter_orientation = true ∧
    (TophatAligner.from_args
      ⟨strToPath f, none, strToPath r, strToPath o⟩).extra_args = [] ∧
    (TophatAligner.from_args
      ⟨strToPath f, none, strToPath r, strToPath o⟩).assemble = false ∧
    (TophatAligner.from_args
      ⟨strToPath f, none, strToPath r, strToPath o⟩).assemble_args = [] ∧
    (TophatAligner.from_args
      ⟨strToPath f, none, strToPath r, strToPath o⟩).filter_blacklist = none := by
  refine ⟨rfl, ?_, ?_, ?_, rfl, rfl, rfl, rfl, rfl, rfl, rfl, rfl⟩
  · exact ⟨_, by unfold parse_base_args; rw [h1]⟩
  · rcases hf : dictGet? m2 "--fastq" with _ | f2
    · exact ⟨_, by unfold parse_base_args; rw [hf]⟩
    · exact ⟨_, by unfold parse_base_args; rw [hf, h2]⟩
  · rcases hf : dictGet? m3 "--fastq" with _ | f3
    · exact ⟨_, by unfold parse_base_args; rw [hf]⟩
    · rcases hr : dictGet? m3 "--reference" with _ | r3
      · exact ⟨_, by unfold parse_base_args; rw [hf, hr]⟩
      · exact ⟨_, by unfold parse_base_args; rw [hf, hr, h3]⟩

/-- C8 witness: the concrete minimal command line and the empty flag maps. -/
theorem c8_args_defaults_witness :
    (dictGet? ([] : ArgMap) "--fastq" = none ∧
      dictGet? ([] : ArgMap) "--reference" = none ∧
      dictGet? ([] : ArgMap) "--output_dir" = none) ∧
    (parse_base_args [("--fastq", "a.fastq.gz"), ("--reference", "refdir"),
        ("--output_dir", "/path/to/out")] =
      Except.ok ⟨strToPath "a.fastq.gz", none, strToPath "refdir",
        strToPath "/path/to/out"⟩ ∧
    (∃ e, parse_base_args ([] : ArgMap) = Except.error e) ∧
    (∃ e, parse_base_args ([] : ArgMap) = Except.error e) ∧
    (∃ e, parse_base_args ([] : ArgMap) = Except.error e) ∧
    (TophatAligner.from_args ⟨strToPath "a.fastq.gz", none, strToPath "refdir",
      strToPath "/path/to/out"⟩).threads = 1 ∧
    (TophatAligner.from_args ⟨strToPath "a.fastq.gz", none, strToPath "refdir",
      strToPath "/path/to/out"⟩).min_flank = 12 ∧
    (TophatAligner.from_args ⟨strToPath "a.fastq.gz", none, strToPath "refdir",
      strToPath "/path/to/out"⟩).filter_features = true ∧
    (TophatAligner.from_args ⟨strToPath "a.fastq.gz", none, strToPath "refdir",
      strToPath "/path/to/out"⟩).filter_orientation = true ∧
    (TophatAligner.from_args ⟨strToPath "a.fastq.gz", none, strToPath "refdir",
      strToPath "/path/to/out"⟩).extra_args = [] ∧
    (TophatAligner.from_args ⟨strToPath "a.fastq.gz", none, strToPath "refdir",
      strToPath "/path/to/out"⟩).assemble = false ∧
    (TophatAligner.from_args ⟨strToPath "a.fastq.gz", none, strToPath "refdir",
      strToPath "/path/to/out"⟩).assemble_args = [] ∧
    (TophatAligner.from_args ⟨strToPath "a.fastq.gz", none, strToPath "refdir",
      strToPath "/path/to/out"⟩).filter_blacklist = none) :=
  ⟨⟨rfl, rfl, rfl⟩,
   c8_args_defaults "a.fastq.gz" "refdir" "/path/to/out" [] [] [] rfl rfl rfl⟩

/-- A metadata value of an `Insertion`: string, integer, or rational
(FFPM values, exact rather than floating point). -/
inductive MetaVal where
  | s (v : String)
  | i (v : Int)
  | q (v : ℚ)
deriving Repr, DecidableEq

/-- `Insertion` (imfusion/model.py, not in the excerpt). Modelled from the
spec: identifier, genomic seqname/position/strand, junction/spanning read
support counts, derived total support, and an open metadata mapping. -/
structure Insertion where
  id : String
  seqname : String
  position : Nat
  strand : Int
  support_junction : Nat
  support_spanning : Nat
  support : Nat
  metadata : Dict MetaVal
deriving Repr, DecidableEq

/-- FFPM normalization, modelled from the spec: a support count times 1e6
divided by the total number of sequenced fragments. -/
def ffpm (count n_fragments : ℚ) : ℚ := count * 1000000 / n_fragments

/-- Modelled from the spec: the FFPM annotation step of
`TophatAligner.identify_insertions` (not in the excerpt) — extends each
insertion's metadata with `ffpm_junction`, `ffpm_spanning` and `ffpm`,
computed from the respective support counts. -/
def annotate_ffpm (n_fragments : ℚ) (ins : Insertion) : Insertion :=
  { ins with metadata := ins.metadata ++
      [("ffpm_junction", MetaVal.q (ffpm (ins.support_junction : ℚ) n_fragments)),
       ("ffpm_spanning", MetaVal.q (ffpm (ins.support_spanning : ℚ) n_fragments)),
       ("ffpm", MetaVal.q (ffpm (ins.support : ℚ) n_fragments))] }

/-- Modelled from the spec: `TophatAligner.identify_insertions` (not in
the excerpt) — turns the records parsed from the fusion report into
`Insertion`s annotated with FFPM values; the number of sequenced fragments
is the fastq line count divided by 4 (four lines per read). -/
def identify_insertions (raw : List Insertion) (total_lines : ℚ) :
    List Insertion :=
  raw.map (annotate_ffpm (total_lines / 4))

/-- Modelled from the spec: the records parsed from the sample fixture
fusion-report file (tests data file, not in the excerpt). The spec fixes
the count (7) and every field of the record at index 2 (the Cblb
insertion); the other six records are placeholders carrying only ids. -/
def sample_fixture_insertions : List Insertion :=
  [⟨"INS_1", "1", 1000, 1, 10, 5, 15, []⟩,
   ⟨"INS_2", "2", 2000, 1, 20, 10, 30, []⟩,
   ⟨"INS_4", "16", 52141093, -1, 462, 103, 565,
    [("gene_id", MetaVal.s "ENSMUSG00000022637"),
     ("transposon_anchor", MetaVal.i 1539),
     ("feature_name", MetaVal.s "En2SA"),
     ("gene_name", MetaVal.s "Cblb"),
     ("feature_type", MetaVal.s "SA"),
     ("gene_strand", MetaVal.i 1),
     ("orientation", MetaVal.s "antisense")]⟩,
   ⟨"INS_5", "5", 5000, 1, 40, 20, 60, []⟩,
   ⟨"INS_6", "6", 6000, -1, 50, 25, 75, []⟩,
   ⟨"INS_7", "7", 7000, 1, 60, 30, 90, []⟩,
   ⟨"INS_8", "8", 8000, -1, 70, 35, 105, []⟩]

/-- C1: on the sample fixture with the total fastq line count mocked to
8e6 (2e6 sequenced fragments), `identify_insertions` yields exactly 7
records; the record at index 2 has id INS_4, seqname 16, position
52141093, strand -1, support 462/103/565, and FFPM metadata equal to the
corresponding support count times 1e6 over the fragment count:
231.0, 51.5 and 282.5. -/
theorem c1_fixture_insertions :
    (identify_insertions sample_fixture_insertions 8000000).length = 7 ∧
    ((identify_insertions sample_fixture_insertions 8000000).get? 2).map
      Insertion.id = some "INS_4" ∧
    ((identify_insertions sample_fixture_insertions 8000000).get? 2).map
      Insertion.seqname = some "16" ∧
    ((identify_insertions sample_fixture_insertions 8000000).get? 2).map
      Insertion.position = some 52141093 ∧
    ((identify_insertions sample_fixture_insertions 8000000).get? 2).map
      Insertion.strand = some (-1) ∧
    ((identify_insertions sample_fixture_insertions 8000000).get? 2).map
      Insertion.support_junction = some 462 ∧
    ((identify_insertions sample_fixture_insertions 8000000).get? 2).map
      Insertion.support_spanning = some 103 ∧
    ((identify_insertions sample_fixture_insertions 8000000).get? 2).map
      Insertion.support = some 565 ∧
    ((identify_insertions sample_fixture_insertions 8000000).get? 2).map
      (fun ins => dictGet? ins.metadata "ffpm_junction") =
        some (some (MetaVal.q (ffpm 462 ((8000000 : ℚ) / 4)))) ∧
    ((identify_insertions sample_fixture_insertions 8000000).get? 2).map
      (fun ins => dictGet? ins.metadata "ffpm_spanning") =
        some (some (MetaVal.q (ffpm 103 ((8000000 : ℚ) / 4)))) ∧
    ((identify_insertions sample_fixture_insertions 8000000).get? 2).map
      (fun ins => dictGet? ins.metadata "ffpm") =
        some (some (MetaVal.q (ffpm 565 ((8000000 : ℚ) / 4)))) ∧
    ffpm 462 ((8000000 : ℚ) / 4) = (231.0 : ℚ) ∧
    ffpm 103 ((8000000 : ℚ) / 4) = (51.5 : ℚ) ∧
    ffpm 565 ((8000000 : ℚ) / 4) = (282.5 : ℚ) := by
  refine ⟨rfl, ?_, ?_, ?_, ?_, ?_, ?_, ?_, ?_, ?_, ?_, ?_, ?_, ?_⟩
  · decide
  · decide
  · decide
  · decide
  · decide
  · decide
  · decide
  · simp [identify_insertions, sample_fixture_insertions, annotate_ffpm, dictGet?]
  · simp [identify_insertions, sample_fixture_insertions, annotate_ffpm, dictGet?]
  · simp [identify_insertions, sample_fixture_insertions, annotate_ffpm, dictGet?]
  · norm_num [ffpm]
  · norm_num [ffpm]
  · norm_num [ffpm]

end IMFusion
